import Mathlib

/-!
Verification of `mozillians/phonebook/views.py` (request handlers of a
community directory).  The handlers are embedded shallowly: each Django view
becomes a pure Lean function from an explicit request/viewer/database state to
a response value.  External collaborators (the ORM queryset operations, Django
paginator, form validation, the async task queue) are modelled explicitly;
collaborators whose code is outside this excerpt are marked
"Modelled from the spec".
-/

namespace Phonebook

/-! ## Privacy levels (`mozillians.users.managers`, external constants).
The spec describes them as an enumerated ordering PUBLIC < MOZILLIANS <
EMPLOYEES < PRIVILEGED. -/

def PUBLIC : Nat := 1
def MOZILLIANS : Nat := 2
def EMPLOYEES : Nat := 3
def PRIVILEGED : Nat := 4

/-- A `UserProfile` row together with the fields of its `User`, as consumed by
the handlers: username, full name (empty = profile not completed), primary key,
vouched flag, the owner's configured privacy level (read when the owner acts as
a viewer), whether the record has any PUBLIC-tier field (what the
`.public()` queryset filter selects on), the account email and the mailing-list
("basket") token. -/
structure Profile where
  username : String
  full_name : String
  pk : Nat
  is_vouched : Bool
  privacy_level : Nat
  has_public_fields : Bool
  email : String
  basket_token : String
  deriving Repr, DecidableEq

/-- `request.user`: either Django's AnonymousUser or an authenticated user
carrying its username and its `userprofile`. -/
inductive RequestUser where
  | anonymous
  | auth (username : String) (userprofile : Profile)
  deriving Repr, DecidableEq

def RequestUser.is_authenticated : RequestUser → Bool
  | .anonymous => false
  | .auth _ _ => true

/-- `request.user.username` (Django's AnonymousUser has username `""`). -/
def RequestUser.username : RequestUser → String
  | .anonymous => ""
  | .auth u _ => u

def RequestUser.userprofile : RequestUser → Option Profile
  | .anonymous => none
  | .auth _ p => some p

/-- `request.user.userprofile.is_vouched`, read only on authenticated paths. -/
def RequestUser.vouched : RequestUser → Bool
  | .anonymous => false
  | .auth _ p => p.is_vouched

/-- `UserProfile.objects.get(user__username=username)` /
`.privacy_level(L).get(user__username=username)`: lookup by username
(usernames are unique). -/
def findProfile (db : List Profile) (username : String) : Option Profile :=
  db.find? (fun p => p.username == username)

/-- A profile as handed to the template: the underlying record plus the
instance privacy level at which it is rendered.  `none` models the full
unfiltered record (`request.user.userprofile` with no level applied);
`some L` models either a `.privacy_level(L)` queryset projection or the
effect of `set_instance_privacy_level(L)`. -/
structure ShownProfile where
  base : Profile
  instance_level : Option Nat
  deriving Repr, DecidableEq

/-- The template context built by `view_profile`. -/
structure ProfileRenderData where
  shown_user : String
  profile : ShownProfile
  privacy_mode : Option String
  vouch_form : Option Nat
  deriving Repr, DecidableEq

/-- `LOGIN_MESSAGE` from `mozillians.common.middleware` (external constant). -/
def LOGIN_MESSAGE : String := "You must be logged in to continue."

/-- `GET_VOUCHED_MESSAGE` from `mozillians.common.middleware` (external
constant, distinct from `LOGIN_MESSAGE`). -/
def GET_VOUCHED_MESSAGE : String := "You must be vouched to continue."

/-- Responses a profile view can produce: the `login_required` redirect (after
the `LOGIN_MESSAGE` warning), the redirect home (after the
`GET_VOUCHED_MESSAGE` error), `Http404`, a successful render, or an uncaught
`DoesNotExist` escaping from `.get()`. -/
inductive ProfileResponse where
  | redirectLogin (msg : String)
  | redirectHome (msg : String)
  | http404
  | render (data : ProfileRenderData)
  | doesNotExist
  deriving Repr, DecidableEq

/-- `view_profile(request, username)` (views.py lines 44-99).  The request's
`view_as` GET parameter is `view_as_param` (absent = `none`). -/
def view_profile (db : List Profile) (user : RequestUser)
    (view_as_param : Option String) (username : String) : ProfileResponse :=
  if user.is_authenticated && (user.username == username) then
    -- own profile
    match user.userprofile with
    | none => .doesNotExist
    | some uprof =>
      let view_as := view_as_param.getD "myself"
      let shown : Option ShownProfile :=
        if view_as == "anonymous" then
          (findProfile db username).map (fun p => ⟨p, some PUBLIC⟩)
        else if view_as == "mozillian" then
          (findProfile db username).map (fun p => ⟨p, some MOZILLIANS⟩)
        else if view_as == "employee" then
          (findProfile db username).map (fun p => ⟨p, some EMPLOYEES⟩)
        else if view_as == "privileged" then
          (findProfile db username).map (fun p => ⟨p, some PRIVILEGED⟩)
        else
          some ⟨uprof, none⟩
      match shown with
      | none => .doesNotExist
      | some sp =>
        .render { shown_user := sp.base.username, profile := sp,
                  privacy_mode := some view_as, vouch_form := none }
  else
    let userprofile_query := db.filter (fun p => p.username == username)
    let public_profile_exists := userprofile_query.any (fun p => p.has_public_fields)
    let profile_exists := !userprofile_query.isEmpty
    let profile_complete := userprofile_query.any (fun p => !(p.full_name == ""))
    -- the two early returns guarded by `if not public_profile_exists:`,
    -- flattened (when the first guard falls through, the viewer is known
    -- authenticated, so the second needs only the vouch test)
    if !public_profile_exists && !user.is_authenticated then
      .redirectLogin LOGIN_MESSAGE
    else if !public_profile_exists && !user.vouched then
      .redirectHome GET_VOUCHED_MESSAGE
    else if !profile_exists || !profile_complete then
      .http404
    else
        match findProfile db username with
        | none => .doesNotExist
        | some p =>
          let lvl := PUBLIC
          let lvl := if user.is_authenticated then
              ((user.userprofile.map Profile.privacy_level).getD lvl)
            else lvl
          let vform :=
            if !p.is_vouched && user.is_authenticated && user.vouched then
              some p.pk
            else none
          .render { shown_user := p.username, profile := ⟨p, some lvl⟩,
                    privacy_mode := none, vouch_form := vform }

/-! ## Account deletion (`delete`, views.py lines 162-173). -/

/-- One `request.user` as the deletion handler sees it: the `User` id and
email plus the `userprofile` id and basket token, and whether the profile has
been anonymized. -/
structure DeleteUser where
  id : Nat
  email : String
  userprofile_id : Nat
  basket_token : String
  anonymized : Bool
  deriving Repr, DecidableEq

/-- Observable effects of the deletion handler, in program order: the two
`unindex_objects.delay` enqueues, the `remove_from_basket_task.delay` enqueue
(carrying the email/token values read at call time), the synchronous
`userprofile.anonymize()` call, the log line, and `auth.logout`. -/
inductive TaskEvent where
  | unindex_objects (public_index : Bool) (profile_ids : List Nat)
  | remove_from_basket (email : String) (token : String)
  | anonymize_profile (profile_id : Nat)
  | log_deleting (user_id : Nat)
  | logout
  deriving Repr, DecidableEq

/-- `UserProfile.anonymize()` (external model): scrubs the personal
identifiers of the record, making email and basket token unrecoverable. -/
def anonymizeUser (u : DeleteUser) : DeleteUser :=
  { u with email := "", basket_token := "", anonymized := true }

/-- `delete(request)` (views.py lines 162-173), as explicit state passing:
each line reads the current user state, appends its observable event, and
`anonymize` replaces the state.  Returns the final user state and the event
trace; the HTTP response is always `redirect('phonebook:home')`. -/
def delete (u : DeleteUser) : DeleteUser × List TaskEvent :=
  let s0 := u
  let ev1 := TaskEvent.unindex_objects false [s0.userprofile_id]
  let ev2 := TaskEvent.unindex_objects true [s0.userprofile_id]
  let ev3 := TaskEvent.remove_from_basket s0.email s0.basket_token
  let s1 := anonymizeUser s0
  let ev4 := TaskEvent.anonymize_profile s0.userprofile_id
  let ev5 := TaskEvent.log_deleting s0.id
  let ev6 := TaskEvent.logout
  (s1, [ev1, ev2, ev3, ev4, ev5, ev6])

/-! ## Profile editing (`edit_profile`, views.py lines 102-149). -/

/-- A Django form as the handler observes it.  `request.POST or None` makes
the form bound exactly when POST data is present; per Django semantics an
unbound form has `is_valid() = False` and an empty `errors` dict, while a
bound form has non-empty `errors` exactly when it is invalid. -/
structure EditForm where
  bound : Bool
  valid : Bool
  deriving Repr, DecidableEq

def EditForm.is_valid (f : EditForm) : Bool := f.bound && f.valid

def EditForm.has_errors (f : EditForm) : Bool := f.bound && !f.valid

/-- The inputs `edit_profile` branches on: whether the request carried POST
data, the (externally decided) validity verdicts of the user form and of the
profile form, the username before the edit, the username that
`user_form.save()` leaves on the record, and whether the profile was already
complete (which picks `RegisterForm` over `ProfileForm` and the message). -/
structure EditRequest where
  has_post : Bool
  user_form_valid : Bool
  profile_form_valid : Bool
  old_username : String
  new_username : String
  profile_complete : Bool
  deriving Repr, DecidableEq

/-- Responses of `edit_profile`: the redirect to
`reverse('phonebook:profile_view', args=[user.username])`, or a render of the
edit page with an HTTP status and the info messages emitted. -/
inductive EditResponse where
  | redirectProfile (username : String)
  | render (status : Nat) (messages : List String)
  deriving Repr, DecidableEq

/-- `edit_profile(request)` (views.py lines 102-149). -/
def edit_profile (req : EditRequest) : EditResponse :=
  let user_form : EditForm := ⟨req.has_post, req.user_form_valid⟩
  let new_profile := !req.profile_complete
  let profile_form : EditForm := ⟨req.has_post, req.profile_form_valid⟩
  if user_form.is_valid && profile_form.is_valid then
    let msgs :=
      if new_profile then ["Your account has been created."]
      else if !(req.new_username == req.old_username) then
        ["You changed your username; please note your profile URL has also changed."]
      else []
    -- the messages are flashed, then the handler redirects
    let _ := msgs
    .redirectProfile req.new_username
  else
    let status := if profile_form.has_errors || user_form.has_errors then 400 else 200
    .render status []

/-! ## Search (`search`, views.py lines 176-227). -/

/-- `forms.SearchForm`'s cleaned data when the form validates: the free-text
query, the per-page result limit, and the include-non-vouched flag. -/
structure SearchForm where
  q : String
  limit : Nat
  include_non_vouched : Bool
  deriving Repr, DecidableEq

/-- A search request: `none` form models `form.is_valid()` returning False,
`page` is the raw `page` GET parameter (absent = `none`, defaulting to the
integer 1), `is_ajax` selects the partial template. -/
structure SearchRequest where
  form : Option SearchForm
  page : Option String
  is_ajax : Bool
  deriving Repr, DecidableEq

/-- Modelled from the spec: free-text profile matching inside
`UserProfile.search` (in `mozillians/users/models.py`, not part of this
excerpt).  The spec leaves matching semantics unspecified; modelled as an
exact match on full name or username. -/
def matchesQuery (query : String) (p : Profile) : Bool :=
  p.full_name == query || p.username == query

/-- Modelled from the spec: `UserProfile.search(query, public,
include_non_vouched)` (in `mozillians/users/models.py`, not part of this
excerpt).  Per the spec, a public-tier search returns only public-tier
results regardless of the include-non-vouched flag; a non-public search
returns vouched targets, plus non-vouched targets when the flag is set. -/
def UserProfile.search (db : List Profile) (query : String)
    (public : Bool) (include_non_vouched : Bool) : List Profile :=
  if public then
    db.filter (fun p => matchesQuery query p && p.has_public_fields)
  else
    db.filter (fun p => matchesQuery query p && (p.is_vouched || include_non_vouched))

/-- Modelled from the spec: `Group.search(query)` (in
`mozillians/groups/models.py`, not part of this excerpt): the groups matching
the query.  Groups are modelled by their names. -/
def Group.search (gdb : List String) (query : String) : List String :=
  gdb.filter (fun g => g == query)

/-- Modelled from the spec: `Group.get_curated()` (not part of this excerpt):
the curated subset of groups, only passed through to the template. -/
def Group.get_curated (gdb : List String) : List String := gdb

/-- `forms.PAGINATION_LIMIT` (external constant from the forms module): the
display threshold above which the pagination UI is shown. -/
def PAGINATION_LIMIT : Nat := 20

/-- The exceptions the handler's pagination block can observe: Django's
`PageNotAnInteger` and `EmptyPage`, plus the `IndexError` that `people[0]`
would raise on an empty page. -/
inductive PyError where
  | PageNotAnInteger
  | EmptyPage
  | IndexErr
  deriving Repr, DecidableEq

/-- Django `Paginator.num_pages` (default `orphans=0`,
`allow_empty_first_page=True`): `ceil(max(1, count) / per_page)`. -/
def Paginator.num_pages (count per_page : Nat) : Nat :=
  (max 1 count + per_page - 1) / per_page

/-- Django `Paginator.page(number)`: `validate_number` converts the argument
to an integer (`PageNotAnInteger` on failure), raises `EmptyPage` when the
number is below 1 or above `num_pages`, and otherwise returns the slice
`items[(n-1)*per : n*per]`.  `number = none` models a non-integer argument. -/
def Paginator.page (count per_page : Nat) (items : List Profile)
    (number : Option Int) : Except PyError (List Profile) :=
  match number with
  | none => .error .PageNotAnInteger
  | some n =>
    if n < 1 then .error .EmptyPage
    else if (Paginator.num_pages count per_page : Int) < n then .error .EmptyPage
    else .ok ((items.drop ((n.toNat - 1) * per_page)).take per_page)

/-- Digit-string accumulator for `parseIntStr`. -/
def parseDigits : List Char → Nat → Option Nat
  | [], acc => some acc
  | c :: cs, acc =>
    if c.isDigit then parseDigits cs (acc * 10 + (c.toNat - 48)) else none

/-- Python's `int(str)` conversion as `validate_number` applies it: an
optional sign followed by at least one digit (further Python liberties such
as surrounding whitespace are not exercised here). -/
def parseIntStr (s : String) : Option Int :=
  match s.data with
  | [] => none
  | '-' :: cs =>
    match cs with
    | [] => none
    | _ => (parseDigits cs 0).map (fun n => -(n : Int))
  | cs => (parseDigits cs 0).map (fun n => (n : Int))

/-- The raw `page` GET parameter as passed to `paginator.page`: an absent
parameter defaults to the integer 1; a string parameter is an integer only if
it parses as one. -/
def parsePage : Option String → Option Int
  | none => some 1
  | some s => parseIntStr s

/-- The `try: people = paginator.page(page) except PageNotAnInteger:
paginator.page(1) except EmptyPage: paginator.page(paginator.num_pages)`
block (views.py lines 202-207).  An error escaping a fallback call would
propagate uncaught. -/
def pageWithFallback (count per_page : Nat) (items : List Profile)
    (number : Option Int) : Except PyError (List Profile) :=
  match Paginator.page count per_page items number with
  | .ok l => .ok l
  | .error .PageNotAnInteger => Paginator.page count per_page items (some 1)
  | .error .EmptyPage =>
      Paginator.page count per_page items (some (Paginator.num_pages count per_page))
  | .error .IndexErr => .error .IndexErr

/-- The template context built by `search`; `search_form` echoes the bound
form back to the page. -/
structure SearchRenderData where
  people : List Profile
  search_form : Option SearchForm
  limit : Option Nat
  show_pagination : Bool
  num_pages : Nat
  groups : Option (List String)
  curated_groups : Option (List String)
  deriving Repr, DecidableEq

/-- Responses of `search`: the single-result redirect to a profile page, or a
render of the (full or ajax-partial) results template. -/
inductive SearchResponse where
  | redirectProfile (username : String)
  | render (data : SearchRenderData) (ajax : Bool)
  deriving Repr, DecidableEq

/-- `public = not (request.user.is_authenticated() and
request.user.userprofile.is_vouched)` (views.py lines 192-193). -/
def publicOf (user : RequestUser) : Bool :=
  !(user.is_authenticated && user.vouched)

/-- `profiles = UserProfile.search(query, public=public,
include_non_vouched=include_non_vouched)` with `public` computed from the
viewer (views.py lines 192-196). -/
def searchProfiles (db : List Profile) (user : RequestUser) (f : SearchForm) :
    List Profile :=
  UserProfile.search db f.q (publicOf user) f.include_non_vouched

/-- The part of `search` after the pagination `try/except` block (views.py
lines 197-227, minus the paginator calls): the group search for non-public
viewers, the single-result redirect, and the results render.  `peopleE` is
the outcome of the pagination block. -/
def searchFinish (gdb : List String) (user : RequestUser) (f : SearchForm)
    (ajax : Bool) (profiles : List Profile)
    (peopleE : Except PyError (List Profile)) : Except PyError SearchResponse :=
  let groups := if !(publicOf user) then some (Group.search gdb f.q) else none
  let count := profiles.length
  match peopleE with
  | .error e => .error e
  | .ok people =>
    let groups_falsy := match groups with
      | none => true
      | some l => l.isEmpty
    if count == 1 && groups_falsy then
      match people.head? with
      | none => .error .IndexErr
      | some p => .ok (.redirectProfile p.username)
    else
      let show_pagination := decide (count > PAGINATION_LIMIT)
      let num_pages := if count > PAGINATION_LIMIT then
          Paginator.num_pages count f.limit
        else 0
      .ok (.render { people := people, search_form := some f,
                     limit := some f.limit, show_pagination := show_pagination,
                     num_pages := num_pages, groups := groups,
                     curated_groups := some (Group.get_curated gdb) } ajax)

/-- `search(request)` (views.py lines 176-227).  Returns `.error e` when an
exception would escape the handler uncaught. -/
def search (db : List Profile) (gdb : List String) (user : RequestUser)
    (req : SearchRequest) : Except PyError SearchResponse :=
  match req.form with
  | none =>
    .ok (.render { people := [], search_form := none, limit := none,
                   show_pagination := false, num_pages := 0,
                   groups := none, curated_groups := none } req.is_ajax)
  | some f =>
    let profiles := searchProfiles db user f
    let count := profiles.length
    searchFinish gdb user f req.is_ajax profiles
      (pageWithFallback count f.limit profiles (parsePage req.page))

/-- The content of a search response with the echoed form erased: the search
*results* (people, pagination, groups) as opposed to the echo of the
submitted form itself. -/
def SearchResponse.results : SearchResponse → SearchResponse
  | .redirectProfile u => .redirectProfile u
  | .render d a => .render { d with search_form := none } a

/-! ## Pagination lemmas -/

theorem num_pages_pos (count per : Nat) (h : 0 < per) :
    0 < Paginator.num_pages count per := by
  unfold Paginator.num_pages
  apply Nat.div_pos _ h
  have h1 : 1 ≤ max 1 count := le_max_left 1 count
  omega

theorem page_one_ok (count per : Nat) (items : List Profile) (h : 0 < per) :
    Paginator.page count per items (some 1) =
      .ok ((items.drop ((1 - 1) * per)).take per) := by
  have hnp := num_pages_pos count per h
  simp only [Paginator.page]
  rw [if_neg (by omega), if_neg (by omega)]
  norm_num

theorem page_last_ok (count per : Nat) (items : List Profile) (h : 0 < per) :
    Paginator.page count per items (some (Paginator.num_pages count per)) =
      .ok ((items.drop ((Paginator.num_pages count per - 1) * per)).take per) := by
  have hnp := num_pages_pos count per h
  simp only [Paginator.page]
  rw [if_neg (by omega), if_neg (by omega)]
  simp

/-- The pagination block always succeeds (given a positive per-page limit) and
always yields a genuine page: the slice belonging to some in-range page
number. -/
theorem pageWithFallback_ok (count per : Nat) (items : List Profile)
    (number : Option Int) (h : 0 < per) :
    ∃ n : Nat, 1 ≤ n ∧ n ≤ Paginator.num_pages count per ∧
      pageWithFallback count per items number =
        .ok ((items.drop ((n - 1) * per)).take per) := by
  have hnp := num_pages_pos count per h
  match number with
  | none =>
    refine ⟨1, le_refl 1, hnp, ?_⟩
    have hpage : Paginator.page count per items none = .error .PageNotAnInteger := rfl
    unfold pageWithFallback
    rw [hpage]
    exact page_one_ok count per items h
  | some n =>
    by_cases h1 : n < 1
    · refine ⟨Paginator.num_pages count per, hnp, le_refl _, ?_⟩
      have hpage : Paginator.page count per items (some n) = .error .EmptyPage := by
        simp only [Paginator.page]
        rw [if_pos h1]
      unfold pageWithFallback
      rw [hpage]
      exact page_last_ok count per items h
    · by_cases h2 : (Paginator.num_pages count per : Int) < n
      · refine ⟨Paginator.num_pages count per, hnp, le_refl _, ?_⟩
        have hpage : Paginator.page count per items (some n) = .error .EmptyPage := by
          simp only [Paginator.page]
          rw [if_neg h1, if_pos h2]
        unfold pageWithFallback
        rw [hpage]
        exact page_last_ok count per items h
      · refine ⟨n.toNat, by omega, by omega, ?_⟩
        have hpage : Paginator.page count per items (some n) =
            .ok ((items.drop ((n.toNat - 1) * per)).take per) := by
          simp only [Paginator.page]
          rw [if_neg h1, if_neg h2]
        unfold pageWithFallback
        rw [hpage]

/-! ## Claim theorems -/

/-- Claim C5: account deletion enqueues the private-index removal, the
public-index removal and the mailing-list removal (the latter carrying the
pre-anonymization email and basket token), and only then anonymizes the
profile record and terminates the session — exactly in that order. -/
theorem C5_delete_order_and_identifiers (u : DeleteUser) :
    (delete u).2 = [TaskEvent.unindex_objects false [u.userprofile_id],
                    TaskEvent.unindex_objects true [u.userprofile_id],
                    TaskEvent.remove_from_basket u.email u.basket_token,
                    TaskEvent.anonymize_profile u.userprofile_id,
                    TaskEvent.log_deleting u.id,
                    TaskEvent.logout] ∧
    (delete u).1 = anonymizeUser u :=
  ⟨rfl, rfl⟩

/-- Claim C9: a profile-edit submission (a request with POST data) with
either form invalid re-renders the edit page with HTTP status 400; when both
forms are valid the handler instead redirects to the canonical profile URL
(built from the username left by the save). -/
theorem C9_edit_profile_status (req : EditRequest) (hpost : req.has_post = true) :
    ((req.user_form_valid && req.profile_form_valid) = true →
       edit_profile req = .redirectProfile req.new_username) ∧
    ((req.user_form_valid && req.profile_form_valid) = false →
       edit_profile req = .render 400 []) := by
  unfold edit_profile EditForm.is_valid EditForm.has_errors
  rw [hpost]
  cases hu : req.user_form_valid <;> cases hp : req.profile_form_valid <;> simp

/-- Witness for C9 at a concrete request: an invalid profile form on a POST
yields the 400 render. -/
theorem C9_witness :
    (((false : Bool) && (true : Bool)) = true →
       edit_profile ⟨true, false, true, "ann", "ann", true⟩ =
         .redirectProfile "ann") ∧
    (((false : Bool) && (true : Bool)) = false →
       edit_profile ⟨true, false, true, "ann", "ann", true⟩ = .render 400 []) :=
  C9_edit_profile_status ⟨true, false, true, "ann", "ann", true⟩ rfl

/-- Claim C1: an unauthenticated viewer requesting a profile with no
public-tier projection is redirected to login carrying the login message, and
is never shown the vouch-required message: the authentication check runs
before the vouch check. -/
theorem C1_unauthenticated_login_before_vouch (db : List Profile)
    (va : Option String) (username : String)
    (hpub : (db.filter (fun p => p.username == username)).any
              (fun p => p.has_public_fields) = false) :
    view_profile db .anonymous va username = .redirectLogin LOGIN_MESSAGE ∧
    view_profile db .anonymous va username ≠ .redirectHome GET_VOUCHED_MESSAGE := by
  have hmain : view_profile db .anonymous va username = .redirectLogin LOGIN_MESSAGE := by
    simp [view_profile, RequestUser.is_authenticated, hpub]
  refine ⟨hmain, ?_⟩
  rw [hmain]
  simp

/-- Witness for C1: the empty directory has no public projection of
`"alice"`, and an anonymous request for her profile is redirected to login. -/
theorem C1_witness :
    view_profile [] .anonymous none "alice" = .redirectLogin LOGIN_MESSAGE ∧
    view_profile [] .anonymous none "alice" ≠ .redirectHome GET_VOUCHED_MESSAGE :=
  C1_unauthenticated_login_before_vouch [] none "alice" rfl

/-- Counterexample to C2 as stated: for the username `"alice"` with no record
at all, an unauthenticated viewer is *not* given 404 — the access gate runs
first and redirects to login. -/
theorem C2_counterexample :
    view_profile [] .anonymous none "alice" ≠ .http404 ∧
    view_profile [] .anonymous none "alice" = .redirectLogin LOGIN_MESSAGE := by
  exact ⟨by decide, by decide⟩

/-- Claim C2 (amended): for a username with no record, or whose records all
have an empty full name, a viewer who is not the profile owner gets 404
provided the access gate passes — the viewer is authenticated and vouched, or
a public-tier projection of the target exists.  (As originally stated the
claim fails: an unauthenticated viewer is redirected to login instead, an
authenticated unvouched viewer is redirected home, and the owner gets their
own profile rendered.) -/
theorem C2_amended_http404 (db : List Profile) (user : RequestUser)
    (va : Option String) (username : String)
    (hown : (user.is_authenticated && (user.username == username)) = false)
    (hincomplete : (db.filter (fun p => p.username == username)).all
      (fun p => p.full_name == "") = true)
    (hgate : (user.is_authenticated && user.vouched) = true ∨
             (db.filter (fun p => p.username == username)).any
               (fun p => p.has_public_fields) = true) :
    view_profile db user va username = .http404 := by
  have hpc : (db.filter (fun p => p.username == username)).any
      (fun p => !(p.full_name == "")) = false := by
    rw [Bool.eq_false_iff]
    intro hany
    rw [List.any_eq_true] at hany
    obtain ⟨p, hp, hne⟩ := hany
    have hall := List.all_eq_true.mp hincomplete p hp
    rw [hall] at hne
    simp at hne
  rcases hgate with h | h
  · rw [Bool.and_eq_true] at h
    have hne : (user.username == username) = false := by
      cases hu : (user.username == username)
      · rfl
      · rw [h.1, hu] at hown
        simp at hown
    simp [view_profile, h.1, h.2, hne, hpc]
  · simp [view_profile, hown, h, hpc]

/-- Witness for C2 (amended): an authenticated, vouched viewer `carol`
requesting the nonexistent username `"ghost"` gets 404. -/
theorem C2_amended_witness :
    view_profile [⟨"carol", "Carol C", 5, true, 2, true, "c@x", "t"⟩]
      (.auth "carol" ⟨"carol", "Carol C", 5, true, 2, true, "c@x", "t"⟩)
      none "ghost" = .http404 :=
  C2_amended_http404 _ _ none "ghost" (by decide) (by decide) (Or.inl (by decide))

/-- Claim C3: on a successful non-owner profile view, the rendered profile's
instance privacy level is PUBLIC when the viewer is unauthenticated, and is
replaced by the viewer's own privacy level exactly when the viewer is
authenticated. -/
theorem C3_nonowner_instance_level (db : List Profile) (user : RequestUser)
    (va : Option String) (username : String) (d : ProfileRenderData)
    (hown : (user.is_authenticated && (user.username == username)) = false)
    (hr : view_profile db user va username = .render d) :
    d.profile.instance_level =
      some (if user.is_authenticated then
              (user.userprofile.map Profile.privacy_level).getD PUBLIC
            else PUBLIC) := by
  simp only [view_profile, hown, Bool.false_eq_true, if_false] at hr
  split at hr
  · exact absurd hr (by simp)
  · split at hr
    · exact absurd hr (by simp)
    · split at hr
      · exact absurd hr (by simp)
      · split at hr
        · exact absurd hr (by simp)
        · injection hr with h
          rw [← h]

/-- Witness for C3: an anonymous viewer of `bob`'s profile gets the PUBLIC
instance level. -/
theorem C3_witness :
    (ProfileRenderData.profile
        { shown_user := "bob",
          profile := ⟨⟨"bob", "Bob B", 2, true, 3, true, "b@x", "t"⟩, some PUBLIC⟩,
          privacy_mode := none, vouch_form := none }).instance_level =
      some (if (RequestUser.anonymous).is_authenticated then
              ((RequestUser.anonymous).userprofile.map Profile.privacy_level).getD PUBLIC
            else PUBLIC) :=
  C3_nonowner_instance_level [⟨"bob", "Bob B", 2, true, 3, true, "b@x", "t"⟩]
    .anonymous none "bob" _ (by decide) (by decide)

/-- Claim C4: a profile owner viewing their own profile with
`view_as=anonymous` is shown exactly the PUBLIC-privacy-level projection of
their record as fetched by the PUBLIC-level query — never a projection with
more visible fields. -/
theorem C4_view_as_anonymous_public_projection (db : List Profile)
    (uname : String) (uprof p : Profile)
    (hfind : findProfile db uname = some p) :
    view_profile db (.auth uname uprof) (some "anonymous") uname =
      .render { shown_user := p.username, profile := ⟨p, some PUBLIC⟩,
                privacy_mode := some "anonymous", vouch_form := none } := by
  simp [view_profile, RequestUser.is_authenticated, RequestUser.username,
        RequestUser.userprofile, hfind]

/-- Witness for C4: `bob` previewing himself as anonymous sees his record at
instance level PUBLIC. -/
theorem C4_witness :
    view_profile [⟨"bob", "Bob B", 2, true, 3, true, "b@x", "t"⟩]
        (.auth "bob" ⟨"bob", "Bob B", 2, true, 3, true, "b@x", "t"⟩)
        (some "anonymous") "bob" =
      .render { shown_user := "bob",
                profile := ⟨⟨"bob", "Bob B", 2, true, 3, true, "b@x", "t"⟩, some PUBLIC⟩,
                privacy_mode := some "anonymous", vouch_form := none } :=
  C4_view_as_anonymous_public_projection
    [⟨"bob", "Bob B", 2, true, 3, true, "b@x", "t"⟩] "bob"
    ⟨"bob", "Bob B", 2, true, 3, true, "b@x", "t"⟩
    ⟨"bob", "Bob B", 2, true, 3, true, "b@x", "t"⟩ (by decide)

/-- Claim C10: when the owner supplies a `view_as` value outside
{anonymous, mozillian, employee, privileged} — including an absent parameter
(defaulting to `myself`) and arbitrary strings — the full unfiltered
self-view is rendered, identical to `view_as=myself`, and the supplied value
is still echoed as the rendered privacy mode. -/
theorem C10_unrecognized_view_as_full_self (db : List Profile) (uname : String)
    (uprof : Profile) (va : Option String)
    (h1 : (va.getD "myself" == "anonymous") = false)
    (h2 : (va.getD "myself" == "mozillian") = false)
    (h3 : (va.getD "myself" == "employee") = false)
    (h4 : (va.getD "myself" == "privileged") = false) :
    view_profile db (.auth uname uprof) va uname =
      .render { shown_user := uprof.username, profile := ⟨uprof, none⟩,
                privacy_mode := some (va.getD "myself"), vouch_form := none } ∧
    view_profile db (.auth uname uprof) (some "myself") uname =
      .render { shown_user := uprof.username, profile := ⟨uprof, none⟩,
                privacy_mode := some "myself", vouch_form := none } := by
  constructor
  · simp [view_profile, RequestUser.is_authenticated, RequestUser.username,
          RequestUser.userprofile, h1, h2, h3, h4]
  · simp [view_profile, RequestUser.is_authenticated, RequestUser.username,
          RequestUser.userprofile]

/-- Witness for C10: `bob` supplying `view_as=banana` gets the full self-view
with privacy mode `banana`, the same profile as `view_as=myself`. -/
theorem C10_witness :
    view_profile [] (.auth "bob" ⟨"bob", "Bob B", 2, true, 3, true, "b@x", "t"⟩)
        (some "banana") "bob" =
      .render { shown_user := "bob",
                profile := ⟨⟨"bob", "Bob B", 2, true, 3, true, "b@x", "t"⟩, none⟩,
                privacy_mode := some "banana", vouch_form := none } ∧
    view_profile [] (.auth "bob" ⟨"bob", "Bob B", 2, true, 3, true, "b@x", "t"⟩)
        (some "myself") "bob" =
      .render { shown_user := "bob",
                profile := ⟨⟨"bob", "Bob B", 2, true, 3, true, "b@x", "t"⟩, none⟩,
                privacy_mode := some "myself", vouch_form := none } :=
  C10_unrecognized_view_as_full_self [] "bob" _ (some "banana")
    (by decide) (by decide) (by decide) (by decide)

/-! ## Search lemmas -/

theorem num_pages_one (per : Nat) (h : 0 < per) : Paginator.num_pages 1 per = 1 := by
  unfold Paginator.num_pages
  have h1 : max 1 1 = 1 := by norm_num
  rw [h1]
  have h2 : 1 + per - 1 = per := by omega
  rw [h2, Nat.div_self h]

/-- On a one-element result list every page request ends up with that element
as the single page. -/
theorem pageWithFallback_singleton (per : Nat) (p : Profile) (number : Option Int)
    (h : 0 < per) :
    pageWithFallback 1 per [p] number = .ok [p] := by
  obtain ⟨n, h1, h2, heq⟩ := pageWithFallback_ok 1 per [p] number h
  rw [num_pages_one per h] at h2
  have hn : n = 1 := le_antisymm h2 h1
  subst hn
  rw [heq]
  have h0 : (1 - 1) * per = 0 := by omega
  rw [h0, List.drop_zero, List.take_of_length_le (by simp; omega)]

/-- `searchFinish` on a successfully computed page cannot raise: the only
unchecked access (`people[0]`) is reached only behind `profiles.count() == 1`,
where the page is non-empty. -/
theorem searchFinish_ok (gdb : List String) (user : RequestUser) (f : SearchForm)
    (ajax : Bool) (profiles l : List Profile)
    (hne : profiles.length = 1 → l ≠ []) :
    (searchFinish gdb user f ajax profiles (.ok l)).isOk = true := by
  simp only [searchFinish]
  split
  all_goals split
  all_goals try rfl
  all_goals
    rename_i hcond
    rw [Bool.and_eq_true] at hcond
    have hlen : profiles.length = 1 := by simpa using hcond.1
    have hl' := hne hlen
    cases hhead : l.head?
    · rw [List.head?_eq_none_iff] at hhead
      exact absurd hhead hl'
    · rfl

theorem pageWithFallback_none (count per : Nat) (items : List Profile)
    (h : 0 < per) :
    pageWithFallback count per items none = pageWithFallback count per items (some 1) := by
  have hpage : Paginator.page count per items none = .error .PageNotAnInteger := rfl
  have h1 := page_one_ok count per items h
  unfold pageWithFallback
  rw [hpage, h1]

/-- An `EmptyPage` from an over-range page number is caught and replaced by
the last page. -/
theorem pageWithFallback_out_of_range (count per : Nat) (items : List Profile)
    (n : Int) (h1 : ¬ n < 1) (h2 : (Paginator.num_pages count per : Int) < n) :
    pageWithFallback count per items (some n) =
      Paginator.page count per items (some (Paginator.num_pages count per)) := by
  have hpage : Paginator.page count per items (some n) = .error .EmptyPage := by
    simp only [Paginator.page]
    rw [if_neg h1, if_pos h2]
  unfold pageWithFallback
  rw [hpage]

/-! ## Search claim theorems -/

/-- Claim C6: a valid search whose query matches exactly one profile and no
groups bypasses the results page: the handler redirects straight to that
profile's page, whatever the page parameter. -/
theorem C6_single_result_redirect (db : List Profile) (gdb : List String)
    (user : RequestUser) (f : SearchForm) (pg : Option String) (ajax : Bool)
    (p : Profile) (hl : 0 < f.limit)
    (hp : searchProfiles db user f = [p])
    (hg : publicOf user = true ∨ Group.search gdb f.q = []) :
    search db gdb user ⟨some f, pg, ajax⟩ = .ok (.redirectProfile p.username) := by
  show searchFinish gdb user f ajax (searchProfiles db user f)
      (pageWithFallback (searchProfiles db user f).length f.limit
        (searchProfiles db user f) (parsePage pg)) = .ok (.redirectProfile p.username)
  rw [hp]
  rw [show ([p] : List Profile).length = 1 from rfl]
  rw [pageWithFallback_singleton f.limit p (parsePage pg) hl]
  cases hpub : publicOf user
  · rcases hg with h | h
    · rw [hpub] at h
      cases h
    · simp [searchFinish, hpub, h]
  · simp [searchFinish, hpub]

/-- Witness for C6: the query `"Bob B"` matches exactly `bob` publicly;
an anonymous searcher is redirected to his profile page. -/
theorem C6_witness :
    search [⟨"bob", "Bob B", 2, true, 3, true, "b@x", "t"⟩] [] .anonymous
        ⟨some ⟨"Bob B", 10, false⟩, some "abc", false⟩ =
      .ok (.redirectProfile "bob") :=
  C6_single_result_redirect [⟨"bob", "Bob B", 2, true, 3, true, "b@x", "t"⟩] []
    .anonymous ⟨"Bob B", 10, false⟩ (some "abc") false
    ⟨"bob", "Bob B", 2, true, 3, true, "b@x", "t"⟩
    (by decide) (by decide) (Or.inl (by decide))

/-- Erasing the echoed form, two `searchFinish` runs differing only in the
submitted form's include-non-vouched flag coincide. -/
theorem searchFinish_results_flag (gdb : List String) (user : RequestUser)
    (f : SearchForm) (b b' : Bool) (ajax : Bool) (profiles : List Profile)
    (peopleE : Except PyError (List Profile)) :
    (searchFinish gdb user { f with include_non_vouched := b } ajax profiles
        peopleE).map SearchResponse.results =
      (searchFinish gdb user { f with include_non_vouched := b' } ajax profiles
        peopleE).map SearchResponse.results := by
  cases peopleE
  · rfl
  · simp only [searchFinish]
    split
    all_goals split
    all_goals simp [SearchResponse.results, Except.map]

/-- Claim C7: an unauthenticated or non-vouched searcher always gets the
public-tier search, and erasing only the form echo the response does not
depend on the include-non-vouched flag: two runs differing only in that flag
agree on all results. -/
theorem C7_public_viewer_flag_irrelevant (db : List Profile) (gdb : List String)
    (user : RequestUser) (f : SearchForm) (pg : Option String) (ajax : Bool)
    (hv : user.is_authenticated = false ∨ user.vouched = false) :
    publicOf user = true ∧
    (search db gdb user ⟨some { f with include_non_vouched := true }, pg, ajax⟩).map
        SearchResponse.results =
      (search db gdb user ⟨some { f with include_non_vouched := false }, pg, ajax⟩).map
        SearchResponse.results := by
  have hpub : publicOf user = true := by
    unfold publicOf
    rcases hv with h | h <;> rw [h] <;> simp
  refine ⟨hpub, ?_⟩
  have hprof : ∀ b : Bool, searchProfiles db user { f with include_non_vouched := b } =
      db.filter (fun p => matchesQuery f.q p && p.has_public_fields) := by
    intro b
    unfold searchProfiles UserProfile.search
    rw [hpub]
    simp
  show (searchFinish gdb user { f with include_non_vouched := true } ajax
      (searchProfiles db user { f with include_non_vouched := true })
      (pageWithFallback (searchProfiles db user { f with include_non_vouched := true }).length
        ({ f with include_non_vouched := true } : SearchForm).limit
        (searchProfiles db user { f with include_non_vouched := true })
        (parsePage pg))).map SearchResponse.results =
    (searchFinish gdb user { f with include_non_vouched := false } ajax
      (searchProfiles db user { f with include_non_vouched := false })
      (pageWithFallback (searchProfiles db user { f with include_non_vouched := false }).length
        ({ f with include_non_vouched := false } : SearchForm).limit
        (searchProfiles db user { f with include_non_vouched := false })
        (parsePage pg))).map SearchResponse.results
  rw [hprof true, hprof false]
  exact searchFinish_results_flag gdb user f true false ajax _ _

/-- Witness for C7: an anonymous searcher's two runs (flag on and off) agree
result-for-result. -/
theorem C7_witness :
    publicOf .anonymous = true ∧
    (search [] [] .anonymous
        ⟨some { q := "x", limit := 5, include_non_vouched := true }, none, false⟩).map
        SearchResponse.results =
      (search [] [] .anonymous
        ⟨some { q := "x", limit := 5, include_non_vouched := false }, none, false⟩).map
        SearchResponse.results :=
  C7_public_viewer_flag_irrelevant [] [] .anonymous
    { q := "x", limit := 5, include_non_vouched := false } none false (Or.inl rfl)

/-- Claim C8: for a valid search submission with a positive page limit the
handler never raises — a non-integer page parameter (`"abc"`) is treated
exactly as page 1, and an out-of-range page number (`9999`, above the page
count) falls back to the last page. -/
theorem C8_page_fallback (db : List Profile) (gdb : List String)
    (user : RequestUser) (f : SearchForm) (pg : Option String) (ajax : Bool)
    (hl : 0 < f.limit)
    (hnp : (Paginator.num_pages (searchProfiles db user f).length f.limit : Int) < 9999) :
    (search db gdb user ⟨some f, pg, ajax⟩).isOk = true ∧
    search db gdb user ⟨some f, some "abc", ajax⟩ =
      search db gdb user ⟨some f, some "1", ajax⟩ ∧
    search db gdb user ⟨some f, some "9999", ajax⟩ =
      searchFinish gdb user f ajax (searchProfiles db user f)
        (Paginator.page (searchProfiles db user f).length f.limit
          (searchProfiles db user f)
          (some (Paginator.num_pages (searchProfiles db user f).length f.limit))) := by
  refine ⟨?_, ?_, ?_⟩
  · show (searchFinish gdb user f ajax (searchProfiles db user f)
        (pageWithFallback (searchProfiles db user f).length f.limit
          (searchProfiles db user f) (parsePage pg))).isOk = true
    obtain ⟨n, hn1, hn2, heq⟩ := pageWithFallback_ok (searchProfiles db user f).length
      f.limit (searchProfiles db user f) (parsePage pg) hl
    rw [heq]
    apply searchFinish_ok
    intro hlen
    obtain ⟨p, hp⟩ := List.length_eq_one.mp hlen
    rw [hlen, num_pages_one f.limit hl] at hn2
    have hn : n = 1 := le_antisymm hn2 hn1
    subst hn
    have h0 : (1 - 1) * f.limit = 0 := by omega
    rw [hp, h0, List.drop_zero, List.take_of_length_le (by simp; omega)]
    simp
  · show searchFinish gdb user f ajax (searchProfiles db user f)
        (pageWithFallback (searchProfiles db user f).length f.limit
          (searchProfiles db user f) (parsePage (some "abc"))) =
      searchFinish gdb user f ajax (searchProfiles db user f)
        (pageWithFallback (searchProfiles db user f).length f.limit
          (searchProfiles db user f) (parsePage (some "1")))
    have ha : parsePage (some "abc") = none := rfl
    have h1 : parsePage (some "1") = some 1 := rfl
    rw [ha, h1, pageWithFallback_none _ f.limit _ hl]
  · show searchFinish gdb user f ajax (searchProfiles db user f)
        (pageWithFallback (searchProfiles db user f).length f.limit
          (searchProfiles db user f) (parsePage (some "9999"))) = _
    have h9 : parsePage (some "9999") = some 9999 := rfl
    rw [h9, pageWithFallback_out_of_range (searchProfiles db user f).length f.limit
      (searchProfiles db user f) 9999 (by norm_num) hnp]

/-- Witness for C8 at a concrete search over the empty directory. -/
theorem C8_witness :
    (search [] [] .anonymous ⟨some ⟨"x", 10, false⟩, none, false⟩).isOk = true ∧
    search [] [] .anonymous ⟨some ⟨"x", 10, false⟩, some "abc", false⟩ =
      search [] [] .anonymous ⟨some ⟨"x", 10, false⟩, some "1", false⟩ ∧
    search [] [] .anonymous ⟨some ⟨"x", 10, false⟩, some "9999", false⟩ =
      searchFinish [] .anonymous ⟨"x", 10, false⟩ false
        (searchProfiles [] .anonymous ⟨"x", 10, false⟩)
        (Paginator.page (searchProfiles [] .anonymous ⟨"x", 10, false⟩).length 10
          (searchProfiles [] .anonymous ⟨"x", 10, false⟩)
          (some (Paginator.num_pages
            (searchProfiles [] .anonymous ⟨"x", 10, false⟩).length 10))) :=
  C8_page_fallback [] [] .anonymous ⟨"x", 10, false⟩ none false (by decide) (by decide)

end Phonebook
